import Mathlib

/-!
  # Rat Race — typing-session state machine

  Shallow embedding of `src/main.rs` (the `State` enum and its methods).
  Rust `String` buffers are modeled as `List Char` (`push` appends at the
  end, `pop` drops the last character).  The `todo!()` and `unreachable!()`
  panic arms of the Rust code are modeled as the `Except.error` results of
  a `Panic` error type, so an `Except.ok` result means the Rust call
  returns normally.
-/

namespace RatRace

/-- Modifier flags of a key event, mirroring the crossterm `KeyModifiers`
bitflags value.  The Rust pattern `KeyModifiers::CONTROL` matches by exact
equality of the whole flag set, which this structure reproduces with
structure equality. -/
structure KeyModifiers where
  shift : Bool
  control : Bool
  alt : Bool
deriving DecidableEq

/-- The `CONTROL` constant: exactly the control flag set. -/
def KeyModifiers.CONTROL : KeyModifiers := ⟨false, true, false⟩

/-- No modifier pressed (crossterm `KeyModifiers::NONE`). -/
def KeyModifiers.NONE : KeyModifiers := ⟨false, false, false⟩

/-- The key codes the program distinguishes: `Esc`, `Backspace`, printable
characters, and a representative of every other `KeyCode` variant (all of
which fall into the wildcard arms of the Rust matches). -/
inductive KeyCode where
  | esc
  | backspace
  | char (c : Char)
  | otherKey
deriving DecidableEq

/-- A key event: its code together with the active modifier flags. -/
structure KeyEvent where
  code : KeyCode
  modifiers : KeyModifiers
deriving DecidableEq

/-- A terminal event: a key press, or any non-key event (mouse, resize,
focus, paste), which `State::update` ignores. -/
inductive Event where
  | key (k : KeyEvent)
  | nonKey
deriving DecidableEq

/-- The session states of `enum State`: `Start`, `Running { text, input }`,
`Done`, `Exit`. -/
inductive State where
  | start
  | running (text : List Char) (input : List Char)
  | done
  | exit
deriving DecidableEq

/-- The panic arms present in the Rust code. -/
inductive Panic where
  | todoExit
  | unreachableAppend
  | unreachablePop
deriving DecidableEq

/-- The fixed reference sentence installed on start/restart. -/
def referenceText : List Char :=
  "The quick brown fox jumped over the lazy dog.".toList

/-- The quit match of `State::on_key_event`:
`(_, Esc) | (KeyModifiers::CONTROL, Char('c') | Char('C'))`. -/
def isQuitKey (key : KeyEvent) : Bool :=
  match key.code with
  | KeyCode.esc => true
  | KeyCode.char c =>
      key.modifiers == KeyModifiers.CONTROL && (c == 'c' || c == 'C')
  | _ => false

/-- `State::append_char`: push `ch` onto the input buffer; every non-Running
state hits the Rust `unreachable!()` arm. -/
def append_char (s : State) (ch : Char) : Except Panic State :=
  match s with
  | State.running text input => Except.ok (State.running text (input ++ [ch]))
  | _ => Except.error Panic.unreachableAppend

/-- `State::pop_char`: drop the last character of the input buffer (a no-op
on an empty buffer, as `String::pop`); every non-Running state hits the Rust
`unreachable!()` arm.  The popped character, returned and discarded in Rust,
is not modeled. -/
def pop_char (s : State) : Except Panic State :=
  match s with
  | State.running text input => Except.ok (State.running text input.dropLast)
  | _ => Except.error Panic.unreachablePop

/-- `State::on_key_event`: first the quit match (which may set the state to
`Exit` in place), then the fall-through match on the — possibly already
updated — state, whose `Exit` arm is `todo!()`. -/
def on_key_event (s : State) (key : KeyEvent) : Except Panic State :=
  let s1 := if isQuitKey key then State.exit else s
  match s1 with
  | State.start | State.done =>
      match key.code with
      | KeyCode.char 's' => Except.ok (State.running referenceText [])
      | _ => Except.ok s1
  | State.running _ _ =>
      match key.code with
      | KeyCode.backspace => pop_char s1
      | KeyCode.char ch => append_char s1 ch
      | _ => Except.ok s1
  | State.exit => Except.error Panic.todoExit

/-- `State::check_complete`: a Running state whose input equals its text
becomes `Done`. -/
def check_complete (s : State) : State :=
  match s with
  | State.running text input =>
      if text = input then State.done else State.running text input
  | _ => s

/-- The event dispatch of `State::update` before the completion check:
key events go to `on_key_event`, all other events are ignored. -/
def handle_event (s : State) (e : Event) : Except Panic State :=
  match e with
  | Event.key k => on_key_event s k
  | _ => Except.ok s

/-- `State::update`: dispatch the event, then run the completion check.
A `Panic` propagates (in Rust the panic unwinds before `check_complete`);
otherwise the call returns `Ok(())` with the state mutated in place. -/
def update (s : State) (e : Event) : Except Panic State :=
  match handle_event s e with
  | Except.ok s1 => Except.ok (check_complete s1)
  | Except.error p => Except.error p

/-- `State::draw`, reduced to its pure projection: the ordered list of
display lines for each state (the surrounding bordered paragraph and title
are renderer concerns).  It reads the state and cannot mutate it. -/
def draw (s : State) : List (List Char) :=
  match s with
  | State.start => [("Press \x27s\x27 to start the test").toList]
  | State.running text input => [text, input]
  | State.done =>
      [("Done!").toList, ("Press \x27s\x27 to restart the test").toList]
  | State.exit => []

/-- `App::run` loop guard `self.state != State::Exit`, as a predicate. -/
def is_terminated (s : State) : Bool := s == State.exit

instance {ε α : Type} [DecidableEq ε] [DecidableEq α] : DecidableEq (Except ε α) :=
  fun a b =>
    match a, b with
    | Except.ok x, Except.ok y =>
        if h : x = y then isTrue (by rw [h]) else
          isFalse (fun he => h (Except.ok.inj he))
    | Except.error x, Except.error y =>
        if h : x = y then isTrue (by rw [h]) else
          isFalse (fun he => h (Except.error.inj he))
    | Except.ok _, Except.error _ => isFalse (fun he => Except.noConfusion he)
    | Except.error _, Except.ok _ => isFalse (fun he => Except.noConfusion he)

/-- The reference sentence ends in a full stop, so it never equals a buffer
whose last character is something else. -/
lemma referenceText_ne_concat (input : List Char) (c : Char) (hc : c ≠ '.') :
    referenceText ≠ input ++ [c] := by
  intro h
  have h1 : (input ++ [c]).getLast? = some c := List.getLast?_concat input
  rw [← h] at h1
  have h2 : referenceText.getLast? = some '.' := by decide
  rw [h2] at h1
  exact hc (Option.some.inj h1).symm

/-- A character key never matches the quit arm unless it is `c`/`C` under
exactly `CONTROL`. -/
lemma isQuitKey_char_ne (k : KeyEvent) (c : Char) (hk : k.code = KeyCode.char c)
    (hc : c ≠ 'c' ∧ c ≠ 'C') : isQuitKey k = false := by
  simp [isQuitKey, hk, hc.1, hc.2]

/-- Invariant: an Active state produced by `update` never has its typed
buffer equal to its reference — `check_complete` runs after every event and
would have transitioned it to `Done`.  Since fresh Active states start with
an empty buffer against a nonempty reference, every reachable Active state
satisfies `text ≠ input`. -/
lemma update_running_ne (s : State) (e : Event) (t i : List Char)
    (h : update s e = Except.ok (State.running t i)) : t ≠ i := by
  unfold update at h
  cases h1 : handle_event s e with
  | ok s1 =>
      rw [h1] at h
      cases s1 with
      | running t2 i2 =>
          by_cases he : t2 = i2
          · simp [check_complete, he] at h
          · simp only [check_complete, if_neg he, Except.ok.injEq,
              State.running.injEq] at h
            obtain ⟨rfl, rfl⟩ := h
            exact he
      | start => simp [check_complete] at h
      | done => simp [check_complete] at h
      | exit => simp [check_complete] at h
  | error p =>
      rw [h1] at h
      exact Except.noConfusion h

/-- Claim C1: the claim expects a quit key event (here: Escape from the
initial Idle state) to yield the Terminated state and stay there.
Evaluating the code instead reaches the `todo!()` panic arm: `quit` sets
the state to `Exit` in place, and the fall-through state dispatch of the
same `on_key_event` call then lands on its `Exit` arm. -/
theorem c1_quit_reaches_todo :
    update State.start (Event.key ⟨KeyCode.esc, KeyModifiers.NONE⟩) =
      Except.error Panic.todoExit := rfl

/-- Claim C2: the claim states `update` never reaches a panic branch and
returns `Ok(())` on every key event from a reachable state.  Evaluating the
code at the reachable Idle state with Control+`c` reaches the `todo!()`
panic arm instead of returning `Ok(())`. -/
theorem c2_ctrl_c_reaches_todo :
    update State.start (Event.key ⟨KeyCode.char 'c', KeyModifiers.CONTROL⟩) =
      Except.error Panic.todoExit := rfl

/-- Claim C3: from Idle or Completed, the character key `s` (under any
modifier set — `s` never matches the quit arm) yields Active with an empty
typed buffer and the fixed reference sentence. -/
theorem c3_start_resets (s : State) (k : KeyEvent)
    (hs : s = State.start ∨ s = State.done)
    (hk : k.code = KeyCode.char 's') :
    update s (Event.key k) = Except.ok (State.running referenceText []) := by
  have hq : isQuitKey k = false := isQuitKey_char_ne k 's' hk (by decide)
  rcases hs with rfl | rfl <;>
    simp [update, handle_event, on_key_event, hq, hk, check_complete,
      referenceText]

/-- Witness for C3 at the Completed state with an unmodified `s`. -/
theorem c3_witness :
    update State.done (Event.key ⟨KeyCode.char 's', KeyModifiers.NONE⟩) =
      Except.ok (State.running referenceText []) :=
  c3_start_resets State.done ⟨KeyCode.char 's', KeyModifiers.NONE⟩
    (Or.inr rfl) rfl

/-- Claim C4: from an Active state, when the event dispatch returns normally
and leaves the buffer `i` (the typed buffer after the event's mutation), the
update transitions to Completed exactly when `i` equals the reference
character for character; otherwise the state stays Active with buffer `i`. -/
theorem c4_completion_exact (text input i : List Char) (e : Event)
    (h : handle_event (State.running text input) e =
      Except.ok (State.running text i)) :
    (update (State.running text input) e = Except.ok State.done ↔ text = i) ∧
    (text ≠ i →
      update (State.running text input) e =
        Except.ok (State.running text i)) := by
  unfold update
  rw [h]
  constructor
  · constructor
    · intro hd
      by_contra hne
      simp [check_complete, hne] at hd
    · intro he
      simp [check_complete, he]
  · intro hne
    simp [check_complete, hne]

/-- Witness for C4: appending `b` to buffer `[a]` against reference `[a, b]`
completes the session. -/
theorem c4_witness :
    (update (State.running ['a', 'b'] ['a'])
        (Event.key ⟨KeyCode.char 'b', KeyModifiers.NONE⟩) =
      Except.ok State.done ↔ (['a', 'b'] : List Char) = ['a', 'b']) ∧
    ((['a', 'b'] : List Char) ≠ ['a', 'b'] →
      update (State.running ['a', 'b'] ['a'])
          (Event.key ⟨KeyCode.char 'b', KeyModifiers.NONE⟩) =
        Except.ok (State.running ['a', 'b'] ['a', 'b'])) :=
  c4_completion_exact ['a', 'b'] ['a'] ['a', 'b']
    (Event.key ⟨KeyCode.char 'b', KeyModifiers.NONE⟩) rfl

/-- Claim C5: from an Active state, a Backspace key never signals a failure,
and — whenever dropping the last character does not complete the session,
which holds in every reachable episode since the nonempty reference is never
a prefix-drop of itself when the buffer is empty — it leaves the state
Active with exactly the last character removed (`List.dropLast` of an empty
buffer is the empty buffer, so the empty case is a no-op). -/
theorem c5_backspace (text input : List Char) (k : KeyEvent)
    (hk : k.code = KeyCode.backspace) :
    (∃ s', update (State.running text input) (Event.key k) = Except.ok s') ∧
    (text ≠ input.dropLast →
      update (State.running text input) (Event.key k) =
        Except.ok (State.running text input.dropLast)) := by
  have hq : isQuitKey k = false := by
    simp [isQuitKey, hk]
  constructor
  · exact ⟨check_complete (State.running text input.dropLast), by
      simp [update, handle_event, on_key_event, hq, hk, pop_char]⟩
  · intro hne
    simp [update, handle_event, on_key_event, hq, hk, pop_char,
      check_complete, hne]

/-- Witness for C5: Backspace on the empty buffer under reference `[a]` is
an error-free no-op. -/
theorem c5_witness :
    (∃ s', update (State.running ['a'] [])
        (Event.key ⟨KeyCode.backspace, KeyModifiers.NONE⟩) = Except.ok s') ∧
    ((['a'] : List Char) ≠ ([] : List Char).dropLast →
      update (State.running ['a'] [])
          (Event.key ⟨KeyCode.backspace, KeyModifiers.NONE⟩) =
        Except.ok (State.running ['a'] ([] : List Char).dropLast)) :=
  c5_backspace ['a'] [] ⟨KeyCode.backspace, KeyModifiers.NONE⟩ rfl

/-- Claim C6: the claim states that in every state an event with no matching
rule is a no-op.  It holds in Idle, Active and Completed, but evaluating the
code at the Terminated state with an unhandled key (any key code outside the
quit/start/typing rules) reaches the `todo!()` panic arm instead of leaving
the state unchanged. -/
theorem c6_exit_unhandled_key_reaches_todo :
    update State.exit (Event.key ⟨KeyCode.otherKey, KeyModifiers.NONE⟩) =
      Except.error Panic.todoExit := rfl

/-- Claim C7: the rendering projection is the pure function `draw` of the
state (it takes the state and cannot mutate it): Idle yields exactly one
line (the start invitation), Active exactly two lines — the reference then
the typed buffer, in that order —, Completed exactly two lines (the
acknowledgment then the restart invitation), and Terminated the empty
sequence of lines. -/
theorem c7_render_lines (text input : List Char) :
    draw State.start = [("Press \x27s\x27 to start the test").toList] ∧
    (draw State.start).length = 1 ∧
    draw (State.running text input) = [text, input] ∧
    (draw (State.running text input)).length = 2 ∧
    draw State.done =
      [("Done!").toList, ("Press \x27s\x27 to restart the test").toList] ∧
    (draw State.done).length = 2 ∧
    draw State.exit = [] := by
  refine ⟨rfl, rfl, rfl, rfl, rfl, rfl, rfl⟩

/-- Claim C8 counterexample: pressing `s` while Active is not a no-op — from
an Active state with an empty typed buffer, the update appends `s`, so the
typed buffer is no longer empty. -/
theorem c8_start_key_appends :
    update (State.running referenceText [])
        (Event.key ⟨KeyCode.char 's', KeyModifiers.NONE⟩) =
      Except.ok (State.running referenceText ['s']) ∧
    update (State.running referenceText [])
        (Event.key ⟨KeyCode.char 's', KeyModifiers.NONE⟩) ≠
      Except.ok (State.running referenceText []) := by
  refine ⟨rfl, by decide⟩

/-- Claim C8 amended: a press of `s` while Active does not restart the
episode — the state stays Active and the reference is unchanged — but the
typed buffer is not left unchanged: `s` is appended to it by the ordinary
typing rule (the append can never complete the session because the
reference ends in a full stop, not in `s`). -/
theorem c8_active_s_no_restart (input : List Char) (k : KeyEvent)
    (hk : k.code = KeyCode.char 's') :
    update (State.running referenceText input) (Event.key k) =
      Except.ok (State.running referenceText (input ++ ['s'])) := by
  have hq : isQuitKey k = false := isQuitKey_char_ne k 's' hk (by decide)
  have hne : referenceText ≠ input ++ ['s'] :=
    referenceText_ne_concat input 's' (by decide)
  simp [update, handle_event, on_key_event, hq, hk, append_char,
    check_complete, hne]

/-- Witness for the amended C8, with a Shift modifier on the `s` key. -/
theorem c8_witness :
    update (State.running referenceText [])
        (Event.key ⟨KeyCode.char 's', ⟨true, false, false⟩⟩) =
      Except.ok (State.running referenceText ['s']) :=
  c8_active_s_no_restart [] ⟨KeyCode.char 's', ⟨true, false, false⟩⟩ rfl

/-- Claim C9: from an Active state whose typed buffer `T` differs from the
reference (as in every reachable Active state), an update whose key appends
the character `c` without matching the quit arm, followed by a Backspace
update, returns the typed buffer to `T`, provided `T ++ [c]` does not equal
the reference (so the append does not complete the session). -/
theorem c9_append_backspace (text T : List Char) (c : Char) (k1 k2 : KeyEvent)
    (hk1 : k1.code = KeyCode.char c) (hq : isQuitKey k1 = false)
    (hk2 : k2.code = KeyCode.backspace)
    (hT : text ≠ T) (hTc : text ≠ T ++ [c]) :
    update (State.running text T) (Event.key k1) =
      Except.ok (State.running text (T ++ [c])) ∧
    update (State.running text (T ++ [c])) (Event.key k2) =
      Except.ok (State.running text T) := by
  have hq2 : isQuitKey k2 = false := by
    simp [isQuitKey, hk2]
  constructor
  · simp [update, handle_event, on_key_event, hq, hk1, append_char,
      check_complete, hTc]
  · have hdrop : (T ++ [c]).dropLast = T := List.dropLast_concat
    simp [update, handle_event, on_key_event, hq2, hk2, pop_char, hdrop,
      check_complete, hT]

/-- Witness for C9: reference `[a, b]`, buffer `[]`, append `a` then
Backspace. -/
theorem c9_witness :
    update (State.running ['a', 'b'] [])
        (Event.key ⟨KeyCode.char 'a', KeyModifiers.NONE⟩) =
      Except.ok (State.running ['a', 'b'] ([] ++ ['a'])) ∧
    update (State.running ['a', 'b'] ([] ++ ['a']))
        (Event.key ⟨KeyCode.backspace, KeyModifiers.NONE⟩) =
      Except.ok (State.running ['a', 'b'] []) :=
  c9_append_backspace ['a', 'b'] [] 'a' ⟨KeyCode.char 'a', KeyModifiers.NONE⟩
    ⟨KeyCode.backspace, KeyModifiers.NONE⟩ rfl rfl rfl
    (by decide) (by decide)

/-- Claim C10: the Control+`c` quit arm fires only when the modifier set is
exactly `CONTROL`: for every other modifier set (for example Control
together with Shift) the key code `c` does not match the quit arm, and from
an Active state the update appends `c` to the typed buffer instead. -/
theorem c10_ctrl_exact (m : KeyModifiers) (input : List Char)
    (hm : m ≠ KeyModifiers.CONTROL) :
    isQuitKey ⟨KeyCode.char 'c', m⟩ = false ∧
    update (State.running referenceText input)
        (Event.key ⟨KeyCode.char 'c', m⟩) =
      Except.ok (State.running referenceText (input ++ ['c'])) := by
  have hq : isQuitKey ⟨KeyCode.char 'c', m⟩ = false := by
    simp [isQuitKey, hm]
  have hne : referenceText ≠ input ++ ['c'] :=
    referenceText_ne_concat input 'c' (by decide)
  refine ⟨hq, ?_⟩
  simp [update, handle_event, on_key_event, hq, append_char,
    check_complete, hne]

/-- Witness for C10: Control together with Shift on `c`, from an Active
state with an empty buffer. -/
theorem c10_witness :
    isQuitKey ⟨KeyCode.char 'c', ⟨true, true, false⟩⟩ = false ∧
    update (State.running referenceText [])
        (Event.key ⟨KeyCode.char 'c', ⟨true, true, false⟩⟩) =
      Except.ok (State.running referenceText (([] : List Char) ++ ['c'])) :=
  c10_ctrl_exact ⟨true, true, false⟩ [] (by decide)

end RatRace
